import Mathlib

/-!
Verification development for the habit-tracker engine in `src/main.py`.

The Python program is shallowly embedded as executable Lean definitions:

* `difflib.SequenceMatcher(None, a, b).ratio()` (used by `similar`, main.py:67-68)
  is reimplemented as `ratioQ` over `List Char`, producing an exact rational
  `2*M/T`.  Python compares the resulting float against the literal `0.8`;
  for the string lengths the program manipulates (T far below 2^50) the IEEE
  double comparison `2.0*M/T > 0.8` agrees with the exact rational comparison
  `2*M/T > 4/5`, so the comparison is modelled exactly over `ℚ`.
* MongoDB documents become Lean structures; each `update_one` call of the
  source becomes one `StoreOp` constructor whose semantics (`applyOp`)
  mirrors the Mongo update operators used there (`$inc`, `$push`, `$set`,
  `$addToSet`, positional `$` = first array element matching the filter,
  `update_one` = first matching document).
* `datetime.now()` is an abstract tick `now : Nat` supplied per invocation.
* The LLM oracle is external I/O: handlers take the parsed verdict as an
  argument, and the request the program would send is modelled by
  `photoOracleRequest` (the arguments built on main.py:89-132).
* Python `KeyError`/attribute failures are modelled by an `error` field /
  `Except`: a raised exception carries the store operations and effects
  already performed before the raise.
-/

namespace HabitTracker

/-- Python `str.lower()` restricted to ASCII case mapping (sufficient for every
string the theorems below evaluate). -/
def pyLower (s : String) : String := String.mk (s.data.map Char.toLower)

/-! ### difflib.SequenceMatcher (CPython, junk=None, autojunk=True)

`b2j` maps each element of `b` to its ascending list of indices; with
`autojunk`, when `len(b) >= 200` the elements occurring more than
`len(b) // 100 + 1` times are dropped from `b2j`.  Since `junk=None`, the set
`bjunk` is empty, hence `isbjunk` is constantly false and the two junk-only
extension loops of `find_longest_match` never execute; only the non-junk
extension loops are modelled. -/
def b2j (b : List Char) (c : Char) : List Nat :=
  let idxs := (List.range b.length).filter (fun j => b.get? j == some c)
  if 200 ≤ b.length ∧ b.length / 100 + 1 < idxs.length then [] else idxs

/-- Inner loop of `find_longest_match`: for fixed `i`, walk `b2j[a[i]]`
(ascending), with `continue` below `blo` and `break` at `bhi`; `old` is the
previous row `j2len`, `acc` accumulates `newj2len`, and `best` is
`(besti, bestj, bestsize)`.  Python's `j2len.get(j-1, 0)` at `j = 0` looks up
key `-1`, which is never present, hence the `j = 0` guard. -/
def flmInner (blo bhi i : Nat) (old : Nat → Nat) :
    List Nat → (Nat → Nat) → Nat × Nat × Nat → ((Nat → Nat) × (Nat × Nat × Nat))
  | [], acc, best => (acc, best)
  | j :: js, acc, best =>
    if j < blo then flmInner blo bhi i old js acc best
    else if bhi ≤ j then (acc, best)
    else
      let k := (if j = 0 then 0 else old (j - 1)) + 1
      let acc2 := fun j2 => if j2 = j then k else acc j2
      let best2 := if best.2.2 < k then (i + 1 - k, j + 1 - k, k) else best
      flmInner blo bhi i old js acc2 best2

/-- Outer loop of `find_longest_match` over `i ∈ range(alo, ahi)`. -/
def flmOuter (a : List Char) (bjmap : Char → List Nat) (blo bhi : Nat) :
    List Nat → (Nat → Nat) → Nat × Nat × Nat → Nat × Nat × Nat
  | [], _, best => best
  | i :: is, j2len, best =>
    let step := flmInner blo bhi i j2len (bjmap (a.getD i '?')) (fun _ => 0) best
    flmOuter a bjmap blo bhi is step.1 step.2

/-- Non-junk left extension: `while besti > alo and bestj > blo and
a[besti-1] == b[bestj-1]`.  Structural recursion on `besti`; the two `getD`
defaults differ so an out-of-range access can never compare equal (all real
calls stay in range). -/
def extendLeft (a b : List Char) (alo blo : Nat) : Nat → Nat → Nat → Nat × Nat × Nat
  | 0, bestj, size => (0, bestj, size)
  | besti + 1, bestj, size =>
    if alo < besti + 1 ∧ blo < bestj ∧ a.getD besti '?' = b.getD (bestj - 1) '!' then
      extendLeft a b alo blo besti (bestj - 1) (size + 1)
    else (besti + 1, bestj, size)

/-- Non-junk right extension: `while besti+bestsize < ahi and bestj+bestsize <
bhi and a[besti+bestsize] == b[bestj+bestsize]: bestsize += 1`.  The loop body
runs fewer than `ahi` times, so fuel `ahi` is never exhausted. -/
def extendRight (a b : List Char) (ahi bhi besti bestj : Nat) : Nat → Nat → Nat
  | 0, size => size
  | fuel + 1, size =>
    if besti + size < ahi ∧ bestj + size < bhi ∧
        a.getD (besti + size) '?' = b.getD (bestj + size) '!' then
      extendRight a b ahi bhi besti bestj fuel (size + 1)
    else size

/-- Python `find_longest_match(alo, ahi, blo, bhi)` returning `(besti, bestj, size)`. -/
def findLongestMatch (a b : List Char) (alo ahi blo bhi : Nat) : Nat × Nat × Nat :=
  let best := flmOuter a (b2j b) blo bhi ((List.range ahi).drop alo) (fun _ => 0) (alo, blo, 0)
  let left := extendLeft a b alo blo best.1 best.2.1 best.2.2
  (left.1, left.2.1, extendRight a b ahi bhi left.1 left.2.1 ahi left.2.2)

/-- Total size of all matching blocks (the recursive specification of
`get_matching_blocks`; the later merge of adjacent blocks leaves the total
unchanged).  Each recursive call strictly shrinks `(ahi-alo)+(bhi-blo)`, so
the initial fuel `|a|+|b|+1` used by `ratioQ` is never exhausted. -/
def matchTotal (a b : List Char) : Nat → Nat → Nat → Nat → Nat → Nat
  | 0, _, _, _, _ => 0
  | fuel + 1, alo, ahi, blo, bhi =>
    let m := findLongestMatch a b alo ahi blo bhi
    if m.2.2 = 0 then 0
    else
      matchTotal a b fuel alo m.1 blo m.2.1 + m.2.2 +
        matchTotal a b fuel (m.1 + m.2.2) ahi (m.2.1 + m.2.2) bhi

/-- Exact rational value of `SequenceMatcher(None, a, b).ratio()`:
`2*M/T` with `T = len(a)+len(b)`, and `1` when both strings are empty
(`_calculate_ratio`). -/
def ratioQ (sa sb : String) : ℚ :=
  let a := sa.data
  let b := sb.data
  if a.length + b.length = 0 then 1
  else mkRat (2 * matchTotal a b (a.length + b.length + 1) 0 a.length 0 b.length)
        (a.length + b.length)

/-- Function `similar(a, b)` of main.py:67-68. -/
def similar (a b : String) : ℚ := ratioQ a b

/-- The similarity threshold `0.8` compared against at main.py:142 and 239. -/
def simThreshold : ℚ := mkRat 4 5

/-! ### Data model (MongoDB documents of the `users` collection)

Field presence mirrors the dictionaries the source writes: a habit created on
the photo path (main.py:171-177) has no `type` key, hence `type? : Option`;
an event (main.py:154-161, 178-186) has exactly the keys
`type, timestamp, response, score, habit_type` — in particular NO
`habit_name` key. -/

/-- Parsed photo-evidence verdict object returned by the oracle
(main.py:112-122).  Each field is `Option`al: Python dict access `v["k"]`
raises `KeyError` on `none`.  The free-form `information` blob is never read
by the engine and is omitted. -/
structure Verdict where
  habit : Option String
  points : Option Int
  message : Option String
deriving DecidableEq, Repr

/-- A habit record inside `user["habits"]`. -/
structure Habit where
  name : String
  type? : Option String
  points : Int
  last_activity : Nat
deriving DecidableEq, Repr

/-- An event record inside `user["events"]`, exactly as appended by
`handle_message` (both photo branches write the same five keys). -/
structure Event where
  type : String
  timestamp : Nat
  response : Verdict
  score : Int
  habit_type : String
deriving DecidableEq, Repr

/-- Values stored under an event's keys, for modelling Python dict access. -/
inductive FieldVal
  | str (s : String)
  | int (i : Int)
  | nat (n : Nat)
  | verdict (v : Verdict)
deriving DecidableEq, Repr

/-- Python dict lookup `e[k]` on an event as written by the intake path:
`some` for the five keys present, `none` (= `KeyError`) for anything else —
in particular for `"habit_name"`. -/
def Event.lookup (e : Event) (k : String) : Option FieldVal :=
  if k = "type" then some (.str e.type)
  else if k = "timestamp" then some (.nat e.timestamp)
  else if k = "response" then some (.verdict e.response)
  else if k = "score" then some (.int e.score)
  else if k = "habit_type" then some (.str e.habit_type)
  else none

/-- A journal entry (main.py:224-226). -/
structure JournalEntry where
  entry : String
  timestamp : Nat
deriving DecidableEq, Repr

/-- A user document (main.py:79-87). -/
structure User where
  user_id : Nat
  habits : List Habit
  events : List Event
  journal_entries : List JournalEntry
  last_activity : Nat
deriving DecidableEq, Repr

/-- The `users` collection, in insertion order. -/
abbrev DB := List User

/-- Mongo `users_collection.find_one({"user_id": uid})`: first matching document. -/
def findUser : DB → Nat → Option User
  | [], _ => none
  | u :: rest, uid => if u.user_id = uid then some u else findUser rest uid

/-- Create the user document if absent (main.py:76-87, `insert_one`). -/
def ensureUser (db : DB) (uid now : Nat) : DB :=
  match findUser db uid with
  | some _ => db
  | none => db ++ [{ user_id := uid, habits := [], events := [], journal_entries := [],
                     last_activity := now }]

/-- Python slice `events[-20:]` / Mongo `$slice: -20`. -/
def lastN {α : Type} (n : Nat) (l : List α) : List α := l.drop (l.length - n)

/-- Mongo `users_collection.distinct("habits.name")` (main.py:320-322): every habit
name of EVERY user, each name once (Mongo reports distinct values; the order
is not specified, modelled as first-occurrence dedup of collection order). -/
def get_all_habits (db : DB) : List String :=
  (db.flatMap (fun u => u.habits.map (fun h => h.name))).dedup

/-! ### Store operations

Each `update_one` call of the source is one constructor; `applyOp` gives its
semantics.  `update_one` updates the FIRST matching document; the positional
`$` operator targets the first array element matching the filter. -/

inductive StoreOp
  /-- main.py:149-165 — filter `{user_id, habits.name}`; `$inc habits.$.points`,
  `$set last_activity`, `$push events`: one combined atomic update. -/
  | incPointsPushEvent (uid : Nat) (habitName : String) (score : Int) (ev : Event) (now : Nat)
  /-- main.py:168-189 — `$addToSet habits`, `$push events`. -/
  | addHabitPushEvent (uid : Nat) (h : Habit) (ev : Event)
  /-- main.py:221-230 — `$push journal_entries`, `$set last_activity`. -/
  | pushJournal (uid : Nat) (entry : String) (now : Nat)
  /-- main.py:246-256 — filter `{user_id, habits.name}`; `$set habits.$.name`,
  `$set habits.$.last_activity` (the `$setOnInsert` is a no-op on a match). -/
  | renameHabit (uid : Nat) (oldName newName : String) (now : Nat)
  /-- main.py:265-279 — `$addToSet habits`, `$set last_activity`. -/
  | addHabitSetActivity (uid : Nat) (h : Habit) (now : Nat)
deriving DecidableEq, Repr

/-- Update the first document satisfying `p` (Mongo `update_one`). -/
def updateFirst (db : DB) (p : User → Bool) (f : User → User) : DB :=
  match db with
  | [] => []
  | u :: rest => if p u then f u :: rest else u :: updateFirst rest p f

/-- Semantics of `$inc habits.$.points` — increment the points of the first habit with the
given name. -/
def incFirstNamed : List Habit → String → Int → List Habit
  | [], _, _ => []
  | h :: rest, n, s =>
    if h.name = n then { h with points := h.points + s } :: rest
    else h :: incFirstNamed rest n s

/-- Semantics of `$set habits.$.name / habits.$.last_activity` — rename the first habit
with the given name. -/
def renameFirstNamed : List Habit → String → String → Nat → List Habit
  | [], _, _, _ => []
  | h :: rest, old, new, now =>
    if h.name = old then { h with name := new, last_activity := now } :: rest
    else h :: renameFirstNamed rest old new now

/-- Semantics of `$addToSet habits` — append the element unless an identical element (all
fields equal, timestamps included) is already present. -/
def addToSet (hs : List Habit) (h : Habit) : List Habit :=
  if h ∈ hs then hs else hs ++ [h]

/-- Does the user's habit array contain a habit with this name
(the `habits.name` part of an `update_one` filter)? -/
def hasHabitNamed (hs : List Habit) (n : String) : Bool :=
  hs.any (fun h => h.name = n)

/-- Semantics of one store operation. -/
def applyOp (db : DB) : StoreOp → DB
  | .incPointsPushEvent uid name score ev now =>
    updateFirst db (fun u => u.user_id = uid ∧ hasHabitNamed u.habits name)
      (fun u => { u with habits := incFirstNamed u.habits name score,
                         last_activity := now,
                         events := u.events ++ [ev] })
  | .addHabitPushEvent uid h ev =>
    updateFirst db (fun u => u.user_id = uid)
      (fun u => { u with habits := addToSet u.habits h, events := u.events ++ [ev] })
  | .pushJournal uid entry now =>
    updateFirst db (fun u => u.user_id = uid)
      (fun u => { u with journal_entries := u.journal_entries ++ [⟨entry, now⟩],
                         last_activity := now })
  | .renameHabit uid old new now =>
    updateFirst db (fun u => u.user_id = uid ∧ hasHabitNamed u.habits old)
      (fun u => { u with habits := renameFirstNamed u.habits old new now })
  | .addHabitSetActivity uid h now =>
    updateFirst db (fun u => u.user_id = uid)
      (fun u => { u with habits := addToSet u.habits h, last_activity := now })

/-- Apply store operations in order. -/
def applyOps (db : DB) (ops : List StoreOp) : DB := ops.foldl applyOp db

/-! ### Intake Reconciler (`handle_message`, main.py:71-287) -/

/-- The similarity loop used at main.py:139-145 and 236-242: walk the habit
list in stored order and `break` at the FIRST habit whose lowercased name has
similarity ratio strictly greater than `0.8` with the lowercased target;
`none` if no habit exceeds the threshold. -/
def findSimilarHabit (habits : List Habit) (target : String) : Option Habit :=
  match habits with
  | [] => none
  | h :: rest =>
    if simThreshold < similar (pyLower h.name) (pyLower target) then some h
    else findSimilarHabit rest target

/-- Function `extract_score_from_response` (main.py:290-294): the `points` field if
present, else 0. -/
def extract_score_from_response (response : Verdict) : Int :=
  match response.points with
  | some p => p
  | none => 0

/-- Python truthiness of the `user_habits` variable (`if user_habits:`,
main.py:236): `None` and the empty list are falsy. -/
def pyTruthy : Option (List Habit) → Bool
  | none => false
  | some l => !l.isEmpty

/-- Outward side effects of one inbound message (chat replies, the webhook
POST of main.py:191-193, the pinned-summary refresh of main.py:297-317;
the chat id of a private chat equals the user id). -/
inductive Effect
  | reply (text : String)
  | webhook (payload : Option User)
  | pinUpdate (uid : Nat)
deriving DecidableEq, Repr

/-- Result of one intake invocation: the store operations applied, the
effects performed, and — if a Python exception was raised — its description.
`ops`/`effects` are exactly those executed before the raise. -/
structure IntakeResult where
  ops : List StoreOp
  effects : List Effect
  error : Option String
deriving DecidableEq, Repr

/-- main.py:195-197. -/
def acceptReply (score : Int) (msg : String) : String :=
  "Evidence received and processed. Your points have been updated by " ++
    toString score ++ " points.\n" ++ msg

/-- main.py:202-204. -/
def rejectReply (msg : String) : String :=
  "The photo does not seem to be valid evidence for your habit. " ++ msg

/-- main.py:232. -/
def journalReply : String := "Journal entry received. Keep up the good work!"

/-- main.py:257-259. -/
def updatedHabitReply (t : String) : String :=
  "Updated your habit to: " ++ t ++
    ". Please send evidence of your progress or journal your activities."

/-- main.py:280-282. -/
def newHabitReply (t : String) : String :=
  "Got it! I\x27ll help you stay accountable for: " ++ t ++
    ". Please send evidence of your progress or journal your activities."

/-- Photo branch of `handle_message` (main.py:100-204), after the user
document has been ensured and the oracle returned the parsed verdict `v`
(with `score = extract_score_from_response v`, main.py:384-386).
Evaluation order follows the source: `response["points"]` is read first
(line 134); in the accept branch the habit list is re-fetched (line 136),
`response["habit"]` is read by the similarity loop / new-habit dict, the
single combined update runs, the webhook fires with the updated document
(lines 191-193), the reply is sent (line 195), and the pinned summary is
refreshed last (line 200).  The reject branch only replies (lines 201-204). -/
def photoPath (db : DB) (uid now : Nat) (v : Verdict) : IntakeResult :=
  match v.points with
  | none => ⟨[], [], some "KeyError: points"⟩
  | some points =>
    if -10 < points then
      match findUser db uid with
      | none => ⟨[], [], some "AttributeError: NoneType get"⟩
      | some u =>
        match v.habit with
        | none => ⟨[], [], some "KeyError: habit"⟩
        | some vhabit =>
          let score := extract_score_from_response v
          let ev : Event := { type := "photo", timestamp := now, response := v,
                              score := score, habit_type := "photo" }
          let ops := match findSimilarHabit u.habits vhabit with
            | some existing => [StoreOp.incPointsPushEvent uid existing.name score ev now]
            | none => [StoreOp.addHabitPushEvent uid
                        { name := vhabit, type? := none, points := score,
                          last_activity := now } ev]
          let db2 := applyOps db ops
          let whk := Effect.webhook (findUser db2 uid)
          match v.message with
          | none => ⟨ops, [whk], some "KeyError: message"⟩
          | some msg =>
            ⟨ops, [whk, Effect.reply (acceptReply score msg), Effect.pinUpdate uid], none⟩
    else
      match v.message with
      | none => ⟨[], [], some "KeyError: message"⟩
      | some msg => ⟨[], [Effect.reply (rejectReply msg)], none⟩

/-- Parsed classification verdict for a text message (main.py:207-217). -/
structure TextVerdict where
  type? : Option String
  message : Option String
deriving DecidableEq, Repr

/-- Text branch of `handle_message` (main.py:205-287), after the user
document has been ensured and the classification oracle returned `v`.
The local variable `user_habits` is initialised to `None` at main.py:91 and
is never reassigned on the text path (only the photo branch, main.py:136,
assigns it), so `if user_habits:` (main.py:236) is always false here and the
rename branch (main.py:244-259) is unreachable; it is still embedded,
guarded by the same truthiness test.  Every text branch ends with the
pinned-summary refresh (main.py:287). -/
def textPath (_db : DB) (uid now : Nat) (text : String) (v : TextVerdict) : IntakeResult :=
  match v.type? with
  | none => ⟨[], [], some "KeyError: type"⟩
  | some t =>
    if t = "journal_entry" then
      ⟨[StoreOp.pushJournal uid text now],
       [Effect.reply journalReply, Effect.pinUpdate uid], none⟩
    else if t = "new_habit" then
      let user_habits : Option (List Habit) := none
      let similar_habit :=
        if pyTruthy user_habits then findSimilarHabit (user_habits.getD []) text
        else none
      match similar_habit with
      | some existing =>
        ⟨[StoreOp.renameHabit uid existing.name text now],
         [Effect.reply (updatedHabitReply text), Effect.pinUpdate uid], none⟩
      | none =>
        ⟨[StoreOp.addHabitSetActivity uid
            { name := text, type? := some "general", points := 0, last_activity := now } now],
         [Effect.reply (newHabitReply text), Effect.pinUpdate uid], none⟩
    else
      ⟨[], [Effect.pinUpdate uid], none⟩

/-- Full handling of one inbound text message: ensure the user document
exists, run the text branch on the classification verdict, apply its store
operations.  Returns the new collection state and the intake result. -/
def handle_message_text (db : DB) (uid now : Nat) (text : String) (v : TextVerdict) :
    DB × IntakeResult :=
  let db0 := ensureUser db uid now
  let r := textPath db0 uid now text v
  (applyOps db0 r.ops, r)

/-- Full handling of one inbound photo message given the oracle verdict. -/
def handle_message_photo (db : DB) (uid now : Nat) (v : Verdict) : DB × IntakeResult :=
  let db0 := ensureUser db uid now
  let r := photoPath db0 uid now v
  (applyOps db0 r.ops, r)

/-- The content of the oracle request built for a photo submission
(main.py:89-98 and 111-132 feeding `process_with_openai`, main.py:326-359):
the known-habit-names list is `get_all_habits()` — a DISTINCT over the WHOLE
collection, not the requesting user's habits — the last 20 events of the
requesting user, and the presigned photo reference. -/
structure OracleRequest where
  knownHabits : List String
  recentEvidences : List Event
  hasImage : Bool
deriving DecidableEq, Repr

/-- The request `handle_message` assembles for the photo-evidence oracle call. -/
def photoOracleRequest (db : DB) (uid now : Nat) : OracleRequest :=
  let db0 := ensureUser db uid now
  { knownHabits := get_all_habits db0,
    recentEvidences := lastN 20 (((findUser db0 uid).map (fun u => u.events)).getD []),
    hasImage := true }

/-! ### Review Scheduler (`send_reminder`, main.py:389-438)

The on-track and reminder-text oracle calls are external I/O; their prompts
are pure functions of, respectively, the habit name with its filtered
evidence window and the off-track list, so the calls are modelled by
functions of those data (returning `Except.error` when the oracle fails
after its retries). -/

/-- Parsed on-track verdict (main.py:409-414): `is_on_track` read with
default `False`, `reason` with default text. -/
structure RemVerdict where
  is_on_track : Option Bool
  reason : Option String
deriving DecidableEq, Repr

/-- Effects of one scheduler run (main.py:433-438). -/
inductive REffect
  | send (chatId : Nat) (msg : String)
  | pinUpdate (chatId : Nat)
deriving DecidableEq, Repr

/-- The list comprehension `[e for e in events if e["habit_name"] == habit_name]`
(main.py:403): evaluating `e["habit_name"]` raises `KeyError` at the first
event lacking the key (every event appended by the intake path lacks it). -/
def filterByHabitName : List Event → String → Except String (List Event)
  | [], _ => .ok []
  | e :: rest, n =>
    match e.lookup "habit_name" with
    | none => .error "KeyError: habit_name"
    | some v => do
      let r ← filterByHabitName rest n
      pure (if v = FieldVal.str n then e :: r else r)

/-- The per-habit loop of `send_reminder` (main.py:398-421), collecting
`habits_not_on_track` as `(habit_name, reason)` pairs.  The filtered evidence
list is sliced `[:20]` — the FIRST 20 entries. -/
def reviewHabits (onTrack : String → List Event → Except String RemVerdict)
    (events : List Event) : List Habit → Except String (List (String × String))
  | [] => .ok []
  | h :: rest => do
    let window ← filterByHabitName events h.name
    let verdict ← onTrack h.name (window.take 20)
    let acc ← reviewHabits onTrack events rest
    pure (if verdict.is_on_track.getD false then acc
          else (h.name, verdict.reason.getD "No reason provided") :: acc)

/-- Processing of a single user by `send_reminder` (main.py:391-438): review
every habit; if any is off-track, ask the reminder oracle once and send the
message plus the pinned-summary refresh (chat id = user id, main.py:436-438). -/
def processUser (onTrack : String → List Event → Except String RemVerdict)
    (remind : List (String × String) → Except String String) (u : User) :
    Except String (List REffect) := do
  let offTrack ← reviewHabits onTrack u.events u.habits
  if offTrack.isEmpty then pure []
  else do
    let msg ← remind offTrack
    pure [REffect.send u.user_id msg, REffect.pinUpdate u.user_id]

/-- One full run of `send_reminder` over the collection: users are processed
in order; the loop body has no exception handler, so the first failure
aborts the run.  Returns the ids of the users processed to completion and
the aborting error, if any. -/
def sendReminderRun (onTrack : String → List Event → Except String RemVerdict)
    (remind : List (String × String) → Except String String) :
    List User → List Nat × Option String
  | [] => ([], none)
  | u :: rest =>
    match processUser onTrack remind u with
    | .error e => ([], some e)
    | .ok _ =>
      let r := sendReminderRun onTrack remind rest
      (u.user_id :: r.1, r.2)

/-! ### Progress report command (`check_progress`, main.py:441-479) -/

/-- Effects of a `/check_progress` invocation; `oracleCall` marks the
`process_with_openai` invocation at main.py:467. -/
inductive CPEffect
  | reply (text : String)
  | oracleCall
deriving DecidableEq, Repr

/-- One entry of the oracle's `progress_report` array (main.py:466-477). -/
structure ProgressItem where
  habit : String
  progress : String
  suggestions : String
deriving DecidableEq, Repr

/-- main.py:457-459. -/
def onboardingReply : String :=
  "You don\x27t have any habits yet. Start by adding a new habit!"

/-- main.py:475-477. -/
def reportText (items : List ProgressItem) : String :=
  items.foldl
    (fun acc r => acc ++ "\nHabit: " ++ r.habit ++ "\nProgress: " ++ r.progress ++
      "\nSuggestions: " ++ r.suggestions ++ "\n")
    "Here is your progress report:\n"

/-- Core of `check_progress` given the oracle's `progress_report` list (read with
default `[]`, main.py:469).  When no user document exists, one is created and
the onboarding prompt is sent WITHOUT consulting the oracle (main.py:446-460);
when a document exists — even with an empty `habits` array — the oracle is
always invoked (main.py:462-467). -/
def check_progress (db : DB) (uid now : Nat) (report : List ProgressItem) :
    DB × List CPEffect :=
  match findUser db uid with
  | none =>
    (db ++ [{ user_id := uid, habits := [], events := [], journal_entries := [],
              last_activity := now }],
     [CPEffect.reply onboardingReply])
  | some _ =>
    if report.isEmpty then
      (db, [CPEffect.oracleCall, CPEffect.reply "No progress report available at the moment."])
    else
      (db, [CPEffect.oracleCall, CPEffect.reply (reportText report)])

/-- First habit in the array whose name is `n` — the element the positional
`$` operator of a `{user_id, habits.name}` filter targets. -/
def firstNamed : List Habit → String → Option Habit
  | [], _ => none
  | h :: rest, n => if h.name = n then some h else firstNamed rest n

/-! ### Concrete inputs used by the counterexamples and witnesses -/

/-- A habit record as the text path creates it at tick 0. -/
def habitNamed (n : String) : Habit :=
  { name := n, type? := some "general", points := 0, last_activity := 0 }

/-- A classification verdict of type `new_habit`. -/
def newHabitVerdict : TextVerdict := ⟨some "new_habit", some "This is a new habit."⟩

/-- State after a fresh user 1 sends the text "run daily" (classified
`new_habit`) at tick 1. -/
def c1db1 : DB := (handle_message_text [] 1 1 "run daily" newHabitVerdict).1

/-- State after the same user sends the identical text again at tick 2. -/
def c1db2 : DB := (handle_message_text c1db1 1 2 "run daily" newHabitVerdict).1

/-- An evidence verdict for habit "run" worth 6 points. -/
def c3verdict : Verdict := ⟨some "run", some 6, some "Nice run!"⟩

/-- State after a fresh user 1 submits an accepted photo for "run". -/
def c3db : DB := (handle_message_photo [] 1 0 c3verdict).1

/-- An on-track oracle stub that always answers on-track. -/
def dummyOnTrack : String → List Event → Except String RemVerdict :=
  fun _ _ => .ok ⟨some true, some "ok"⟩

/-- A reminder-text oracle stub. -/
def dummyRemind : List (String × String) → Except String String :=
  fun _ => .ok "keep going"

def c4habit : Habit := ⟨"run daily", some "general", 0, 0⟩

def c4user : User := ⟨1, [c4habit], [], [], 0⟩

def c4db : DB := [c4user]

def c4verdict : Verdict := ⟨some "run daily", some 6, some "Great run!"⟩

def c5db : DB := [⟨1, [], [], [], 0⟩]

/-- A verdict whose score is exactly the reject threshold. -/
def c5rej : Verdict := ⟨some "run", some (-10), some "too dark"⟩

/-- A verdict one unit above the reject threshold. -/
def c5acc : Verdict := ⟨some "run", some (-9), some "barely"⟩

/-- A verdict with no `points` key at all. -/
def c6verdict : Verdict := ⟨some "run", none, some "hm"⟩

def c6db : DB := [⟨1, [], [], [], 0⟩]

def c7userA : User := ⟨1, [], [], [], 0⟩

def c7userB1 : User := ⟨2, [⟨"swim", some "general", 0, 0⟩], [], [], 0⟩

def c7userB2 : User := ⟨2, [], [], [], 0⟩

/-- Collection where ANOTHER user (id 2) has a habit "swim". -/
def c7dbA : DB := [c7userA, c7userB1]

/-- Same collection except user 2 has no habits; user 1 is identical. -/
def c7dbB : DB := [c7userA, c7userB2]

/-- An event exactly as the intake photo path appends it. -/
def c8event : Event := ⟨"photo", 0, ⟨some "run", some 6, some "Nice"⟩, 6, "photo"⟩

/-- A user whose reminder processing raises (habit plus intake event). -/
def c8userFail : User := ⟨1, [⟨"run", none, 6, 0⟩], [c8event], [], 0⟩

/-- A user whose reminder processing succeeds (no habits). -/
def c8userOk : User := ⟨2, [], [], [], 0⟩

def c8userOk2 : User := ⟨3, [], [], [], 0⟩

/-- An existing user record with an EMPTY habits list. -/
def c9db : DB := [⟨1, [], [], [], 0⟩]

def c10db : DB := [⟨1, [], [], [], 0⟩]

def c10rej : Verdict := ⟨some "run", some (-12), some "bad"⟩

def c10acc : Verdict := ⟨some "run", some 3, some "good"⟩

/-! ### Helper lemmas about the similarity loop and the store semantics -/

theorem fsh_none_iff (habits : List Habit) (t : String) :
    findSimilarHabit habits t = none ↔
      ∀ g ∈ habits, similar (pyLower g.name) (pyLower t) ≤ simThreshold := by
  induction habits with
  | nil => simp [findSimilarHabit]
  | cons a rest ih =>
    by_cases hc : simThreshold < similar (pyLower a.name) (pyLower t)
    · constructor
      · intro hn; simp [findSimilarHabit, hc] at hn
      · intro hall; exact absurd hc (not_lt.mpr (hall a (by simp)))
    · rw [show findSimilarHabit (a :: rest) t = findSimilarHabit rest t by
        simp [findSimilarHabit, hc]]
      rw [ih]
      constructor
      · intro hall g hg
        rcases List.mem_cons.mp hg with rfl | hg2
        · exact not_lt.mp hc
        · exact hall g hg2
      · intro hall g hg
        exact hall g (List.mem_cons_of_mem _ hg)

theorem fsh_some_split (habits : List Habit) (t : String) (h : Habit)
    (hh : findSimilarHabit habits t = some h) :
    simThreshold < similar (pyLower h.name) (pyLower t) ∧
      ∃ pre post, habits = pre ++ h :: post ∧
        ∀ g ∈ pre, similar (pyLower g.name) (pyLower t) ≤ simThreshold := by
  induction habits with
  | nil => simp [findSimilarHabit] at hh
  | cons a rest ih =>
    by_cases hc : simThreshold < similar (pyLower a.name) (pyLower t)
    · simp only [findSimilarHabit, if_pos hc, Option.some.injEq] at hh
      subst hh
      exact ⟨hc, [], rest, rfl, by simp⟩
    · rw [show findSimilarHabit (a :: rest) t = findSimilarHabit rest t by
        simp [findSimilarHabit, hc]] at hh
      obtain ⟨hgt, pre, post, heq, hpre⟩ := ih hh
      refine ⟨hgt, a :: pre, post, by rw [heq]; rfl, ?_⟩
      intro g hg
      rcases List.mem_cons.mp hg with rfl | hg2
      · exact not_lt.mp hc
      · exact hpre g hg2

theorem fsh_mem (habits : List Habit) (t : String) (h : Habit)
    (hh : findSimilarHabit habits t = some h) : h ∈ habits := by
  obtain ⟨-, pre, post, heq, -⟩ := fsh_some_split habits t h hh
  subst heq
  simp

/-- The habit found by the similarity loop is also the first habit bearing
its name: an earlier habit with the same name would have the same similarity
ratio and would have been found first. -/
theorem fsh_firstNamed (habits : List Habit) (t : String) (h : Habit)
    (hh : findSimilarHabit habits t = some h) :
    firstNamed habits h.name = some h := by
  induction habits with
  | nil => simp [findSimilarHabit] at hh
  | cons a rest ih =>
    by_cases hc : simThreshold < similar (pyLower a.name) (pyLower t)
    · simp only [findSimilarHabit, if_pos hc, Option.some.injEq] at hh
      subst hh
      simp [firstNamed]
    · rw [show findSimilarHabit (a :: rest) t = findSimilarHabit rest t by
        simp [findSimilarHabit, hc]] at hh
      have hgt := (fsh_some_split rest t h hh).1
      have hne : a.name ≠ h.name := by
        intro he
        rw [show similar (pyLower a.name) (pyLower t)
              = similar (pyLower h.name) (pyLower t) by rw [he]] at hc
        exact hc hgt
      simp [firstNamed, hne, ih hh]

theorem firstNamed_incFirstNamed (hs : List Habit) (n : String) (s : Int) :
    firstNamed (incFirstNamed hs n s) n =
      (firstNamed hs n).map (fun h => { h with points := h.points + s }) := by
  induction hs with
  | nil => simp [firstNamed, incFirstNamed]
  | cons a rest ih =>
    by_cases hc : a.name = n
    · simp [incFirstNamed, firstNamed, hc]
    · simp [incFirstNamed, firstNamed, hc, ih]

theorem findUser_id (db : DB) (uid : Nat) (u : User)
    (hfind : findUser db uid = some u) : u.user_id = uid := by
  induction db with
  | nil => simp [findUser] at hfind
  | cons a rest ih =>
    by_cases hc : a.user_id = uid
    · simp only [findUser, if_pos hc, Option.some.injEq] at hfind
      subst hfind; exact hc
    · rw [show findUser (a :: rest) uid = findUser rest uid by
        simp [findUser, hc]] at hfind
      exact ih hfind

/-- Mongo `update_one` updates the first matching document: when the filter implies
a `user_id` match and the document `find_one` returns satisfies the filter,
the updated collection holds the transformed document at that id. -/
theorem findUser_updateFirst (db : DB) (uid : Nat) (u : User)
    (p : User → Bool) (f : User → User)
    (hfind : findUser db uid = some u) (hp : p u = true)
    (hall : ∀ w, p w = true → w.user_id = uid) (hf : (f u).user_id = u.user_id) :
    findUser (updateFirst db p f) uid = some (f u) := by
  induction db with
  | nil => simp [findUser] at hfind
  | cons a rest ih =>
    by_cases hc : a.user_id = uid
    · simp only [findUser, if_pos hc, Option.some.injEq] at hfind
      subst hfind
      simp [updateFirst, hp, findUser, hf, hc]
    · have ha : p a = false := by
        cases hpa : p a with
        | false => rfl
        | true => exact absurd (hall a hpa) hc
      rw [show findUser (a :: rest) uid = findUser rest uid by
        simp [findUser, hc]] at hfind
      simp [updateFirst, ha, findUser, hc, ih hfind]

/-! ### Claim theorems -/

/-- C1: submitting the same textual new-habit input twice does NOT reconcile:
because `user_habits` is `None` on the text path, the similarity check never
runs and the second `$addToSet` (whose element differs in `last_activity`)
appends a second Habit record with the identical name — two records, where
the claim demands exactly one (rename, no new record). -/
theorem claim1_duplicate_habit_records :
    (findUser c1db2 1).map (fun u => u.habits) =
      some [⟨"run daily", some "general", 0, 1⟩, ⟨"run daily", some "general", 0, 2⟩]
    ∧ (findUser c1db2 1).map
        (fun u => (u.habits.filter (fun h => h.name = "run daily")).length) = some 2 := by
  decide

/-- C2 counterexample: a label at ratio exactly 0.8 is NOT selected (the code
compares with strict `>`), and the first label strictly above 0.8 wins even
when a later label has a strictly higher ratio — both contrary to the claim. -/
theorem claim2_counterexample :
    similar (pyLower "ab") (pyLower "abc") = mkRat 4 5
    ∧ findSimilarHabit [habitNamed "ab"] "abc" = none
    ∧ similar (pyLower "abcd") (pyLower "abcd") = 1
    ∧ similar (pyLower "abcde") (pyLower "abcd") = mkRat 8 9
    ∧ findSimilarHabit [habitNamed "abcde", habitNamed "abcd"] "abcd" =
        some (habitNamed "abcde") := by
  decide

/-- C2 amended: the matcher returns the FIRST label in stored order whose
case-insensitive similarity ratio with the candidate is STRICTLY greater
than 0.8 (even when a later label has a higher ratio), and none exactly when
no label exceeds 0.8 — so a label at ratio exactly 0.8 is never selected. -/
theorem claim2_amended_first_strictly_above (habits : List Habit) (t : String) :
    (findSimilarHabit habits t = none ↔
       ∀ g ∈ habits, similar (pyLower g.name) (pyLower t) ≤ simThreshold)
    ∧ ∀ h, findSimilarHabit habits t = some h →
        simThreshold < similar (pyLower h.name) (pyLower t)
        ∧ ∃ pre post, habits = pre ++ h :: post
            ∧ ∀ g ∈ pre, similar (pyLower g.name) (pyLower t) ≤ simThreshold :=
  ⟨fsh_none_iff habits t, fun h hh => fsh_some_split habits t h hh⟩

/-- C2 witness: on the concrete list `["abcde", "abcd"]` with candidate
"abcd", the matcher's answer "abcde" is strictly above the threshold and is
the first such label. -/
theorem claim2_witness :
    simThreshold < similar (pyLower (habitNamed "abcde").name) (pyLower "abcd")
    ∧ ∃ pre post,
        [habitNamed "abcde", habitNamed "abcd"] = pre ++ habitNamed "abcde" :: post
        ∧ ∀ g ∈ pre, similar (pyLower g.name) (pyLower "abcd") ≤ simThreshold :=
  (claim2_amended_first_strictly_above [habitNamed "abcde", habitNamed "abcd"] "abcd").2
    (habitNamed "abcde") (by decide)

/-- C3: the event appended by the intake path has no `habit_name` key (only
`habit_type`), so the Review Scheduler's filter `e["habit_name"]` raises
`KeyError` on the very state the intake path produced — it never sees the
habit-name field the claim requires. -/
theorem claim3_reminder_raises_keyerror :
    (findUser c3db 1).map (fun u => u.events.map (fun e => e.lookup "habit_name")) =
      some [none]
    ∧ (findUser c3db 1).map (fun u => processUser dummyOnTrack dummyRemind u) =
        some (Except.error "KeyError: habit_name") :=
  ⟨rfl, rfl⟩

/-- C6: `extract_score_from_response` does default a missing `points` field
to 0, but the photo path's accept/reject decision reads `response["points"]`
directly (main.py:134) and raises `KeyError` before anything else happens. -/
theorem claim6_missing_points_raises :
    extract_score_from_response c6verdict = 0
    ∧ photoPath c6db 1 0 c6verdict = ⟨[], [], some "KeyError: points"⟩ :=
  ⟨rfl, rfl⟩

/-- C4: for an accepted photo submission whose verdict label matches an
existing habit, the engine issues exactly ONE store operation — the combined
increment-and-append update — and in the resulting state the matched habit's
points equal its previous points plus the derived score, with the photo
event appended to the user's event log. -/
theorem claim4_atomic_exactly_once (db : DB) (uid now : Nat) (p : Int)
    (hb m : String) (u : User) (h : Habit) (v : Verdict)
    (hp : v.points = some p) (hhb : v.habit = some hb) (hm : v.message = some m)
    (hacc : -10 < p)
    (hfind : findUser db uid = some u)
    (hmatch : findSimilarHabit u.habits hb = some h) :
    (photoPath db uid now v).ops =
      [StoreOp.incPointsPushEvent uid h.name p
        { type := "photo", timestamp := now, response := v, score := p,
          habit_type := "photo" } now]
    ∧ ∃ u2, findUser (applyOps db (photoPath db uid now v).ops) uid = some u2
        ∧ firstNamed u2.habits h.name = some { h with points := h.points + p }
        ∧ u2.events = u.events ++
            [{ type := "photo", timestamp := now, response := v, score := p,
               habit_type := "photo" }] := by
  obtain ⟨vh, vp, vm⟩ := v
  obtain rfl : vp = some p := hp
  obtain rfl : vh = some hb := hhb
  obtain rfl : vm = some m := hm
  have hops : (photoPath db uid now ⟨some hb, some p, some m⟩).ops =
      [StoreOp.incPointsPushEvent uid h.name p
        { type := "photo", timestamp := now, response := ⟨some hb, some p, some m⟩,
          score := p, habit_type := "photo" } now] := by
    simp [photoPath, hacc, hfind, hmatch, extract_score_from_response]
  refine ⟨hops, ?_⟩
  rw [hops]
  have hfu : findUser
      (applyOps db [StoreOp.incPointsPushEvent uid h.name p
        { type := "photo", timestamp := now, response := ⟨some hb, some p, some m⟩,
          score := p, habit_type := "photo" } now]) uid =
      some { u with habits := incFirstNamed u.habits h.name p,
                    last_activity := now,
                    events := u.events ++
                      [{ type := "photo", timestamp := now,
                         response := ⟨some hb, some p, some m⟩,
                         score := p, habit_type := "photo" }] } := by
    show findUser (updateFirst db _ _) uid = _
    refine findUser_updateFirst db uid u _ _ hfind ?_ ?_ rfl
    · refine decide_eq_true ⟨findUser_id db uid u hfind, ?_⟩
      exact List.any_eq_true.mpr ⟨h, fsh_mem u.habits hb h hmatch, by simp⟩
    · intro w hw
      exact (of_decide_eq_true hw).1
  refine ⟨_, hfu, ?_, rfl⟩
  rw [firstNamed_incFirstNamed, fsh_firstNamed u.habits hb h hmatch]
  rfl

/-- C4 witness: a concrete accepted submission for the existing habit
"run daily" worth 6 points. -/
theorem claim4_witness :
    (photoPath c4db 1 5 c4verdict).ops =
      [StoreOp.incPointsPushEvent 1 c4habit.name 6
        { type := "photo", timestamp := 5, response := c4verdict, score := 6,
          habit_type := "photo" } 5]
    ∧ ∃ u2, findUser (applyOps c4db (photoPath c4db 1 5 c4verdict).ops) 1 = some u2
        ∧ firstNamed u2.habits c4habit.name = some { c4habit with points := c4habit.points + 6 }
        ∧ u2.events = c4user.events ++
            [{ type := "photo", timestamp := 5, response := c4verdict, score := 6,
               habit_type := "photo" }] :=
  claim4_atomic_exactly_once c4db 1 5 6 "run daily" "Great run!" c4user c4habit c4verdict
    rfl rfl rfl (by decide) rfl (by decide)

/-- C5: a photo-evidence score of exactly -10 is rejected — the only effect
is one rejection reply carrying the verdict's message text, no store
operation runs and the collection is unchanged — while a score of -9 is
accepted (a mutation is issued and no exception occurs). -/
theorem claim5_boundary (db : DB) (uid now : Nat) (v w : Verdict)
    (m mw hbw : String) (u : User)
    (hvp : v.points = some (-10)) (hvm : v.message = some m)
    (hwp : w.points = some (-9)) (hwh : w.habit = some hbw) (hwm : w.message = some mw)
    (hfind : findUser db uid = some u) :
    (photoPath db uid now v = ⟨[], [Effect.reply (rejectReply m)], none⟩
      ∧ applyOps db (photoPath db uid now v).ops = db
      ∧ rejectReply m =
          "The photo does not seem to be valid evidence for your habit. " ++ m)
    ∧ ((photoPath db uid now w).ops ≠ [] ∧ (photoPath db uid now w).error = none) := by
  obtain ⟨vh, vp, vm⟩ := v
  obtain rfl : vp = some (-10) := hvp
  obtain rfl : vm = some m := hvm
  obtain ⟨wh, wp, wm⟩ := w
  obtain rfl : wp = some (-9) := hwp
  obtain rfl : wh = some hbw := hwh
  obtain rfl : wm = some mw := hwm
  refine ⟨⟨?_, ?_, rfl⟩, ?_⟩
  · have hnot : ¬((-10 : Int) < -10) := by norm_num
    simp [photoPath, hnot]
  · have hnot : ¬((-10 : Int) < -10) := by norm_num
    simp [photoPath, hnot, applyOps]
  · cases hms : findSimilarHabit u.habits hbw with
    | some ex =>
      constructor
      · simp [photoPath, hfind, hms]
      · simp [photoPath, hfind, hms]
    | none =>
      constructor
      · simp [photoPath, hfind, hms]
      · simp [photoPath, hfind, hms]

/-- C5 witness: user 1 with an empty habit list; verdict scores -10 and -9. -/
theorem claim5_witness :
    (photoPath c5db 1 3 c5rej = ⟨[], [Effect.reply (rejectReply "too dark")], none⟩
      ∧ applyOps c5db (photoPath c5db 1 3 c5rej).ops = c5db
      ∧ rejectReply "too dark" =
          "The photo does not seem to be valid evidence for your habit. " ++ "too dark")
    ∧ ((photoPath c5db 1 3 c5acc).ops ≠ [] ∧ (photoPath c5db 1 3 c5acc).error = none) :=
  claim5_boundary c5db 1 3 c5rej c5acc "too dark" "barely" "run" ⟨1, [], [], [], 0⟩
    rfl rfl rfl rfl rfl rfl

/-- C7 counterexample: two collections in which user 1's document is
identical and only user 2's habits differ produce DIFFERENT oracle requests
for user 1 — the known-habit-names list is a distinct over ALL users, so the
request is not independent of other users' data. -/
theorem claim7_counterexample :
    findUser c7dbA 1 = findUser c7dbB 1
    ∧ (photoOracleRequest c7dbA 1 5).knownHabits = ["swim"]
    ∧ (photoOracleRequest c7dbB 1 5).knownHabits = []
    ∧ photoOracleRequest c7dbA 1 5 ≠ photoOracleRequest c7dbB 1 5 := by
  decide

/-- C7 amended: the known-habit-names list of the photo oracle request
contains exactly the habit names of ALL users in the collection (so it can
depend on other users' data). -/
theorem claim7_amended_all_users_names (db : DB) (uid now : Nat) (n : String) :
    n ∈ (photoOracleRequest db uid now).knownHabits ↔
      ∃ u ∈ db, ∃ h ∈ u.habits, h.name = n := by
  have hnames : get_all_habits (ensureUser db uid now) = get_all_habits db := by
    unfold ensureUser
    cases findUser db uid with
    | some u => rfl
    | none => simp [get_all_habits]
  show n ∈ get_all_habits (ensureUser db uid now) ↔ _
  rw [hnames]
  unfold get_all_habits
  simp [List.mem_dedup, List.mem_flatMap, List.mem_map]

/-- C7 witness: "swim" (user 2's habit) is in the request user 1's photo
submission generates. -/
theorem claim7_witness :
    "swim" ∈ (photoOracleRequest c7dbA 1 5).knownHabits :=
  (claim7_amended_all_users_names c7dbA 1 5 "swim").mpr
    ⟨c7userB1, by decide, ⟨"swim", some "general", 0, 0⟩, by decide, rfl⟩

/-- C8 counterexample: user 2 on its own is processed fine (no habits, no
effects), but in a run over `[user 1, user 2]` where user 1's processing
raises, the run aborts and user 2 — a subsequent user — is never processed. -/
theorem claim8_counterexample :
    processUser dummyOnTrack dummyRemind c8userOk = .ok []
    ∧ sendReminderRun dummyOnTrack dummyRemind [c8userFail, c8userOk] =
        ([], some "KeyError: habit_name") :=
  ⟨rfl, rfl⟩

/-- C8 amended: the reminder loop has no per-user exception handler, so the
first failing user aborts the run: exactly the users before it are
processed, and no user after it is. -/
theorem claim8_amended_abort
    (onTrack : String → List Event → Except String RemVerdict)
    (remind : List (String × String) → Except String String)
    (pre : List User) (u : User) (post : List User) (e : String)
    (hpre : ∀ q ∈ pre, ∃ r, processUser onTrack remind q = .ok r)
    (hu : processUser onTrack remind u = .error e) :
    sendReminderRun onTrack remind (pre ++ u :: post) =
      (pre.map (fun q => q.user_id), some e) := by
  induction pre with
  | nil => simp [sendReminderRun, hu]
  | cons a rest ih =>
    obtain ⟨r, hr⟩ := hpre a (by simp)
    have hrec := ih (fun q hq => hpre q (by simp [hq]))
    simp [sendReminderRun, hr, hrec]

/-- C8 witness: in the run `[user 2, user 1, user 3]` with user 1 failing,
only user 2 is processed; user 3 is skipped. -/
theorem claim8_witness :
    sendReminderRun dummyOnTrack dummyRemind [c8userOk, c8userFail, c8userOk2] =
      ([2], some "KeyError: habit_name") :=
  claim8_amended_abort dummyOnTrack dummyRemind [c8userOk] c8userFail [c8userOk2]
    "KeyError: habit_name"
    (by
      intro q hq
      rw [List.mem_singleton] at hq
      subst hq
      exact ⟨[], rfl⟩)
    rfl

/-- C9 counterexample: an EXISTING user record with an empty habits list
still triggers the oracle call — the onboarding-without-oracle path only
covers the case where no user record exists at all. -/
theorem claim9_counterexample :
    (findUser c9db 1).map (fun u => u.habits) = some []
    ∧ CPEffect.oracleCall ∈ (check_progress c9db 1 5 []).2 := by
  decide

/-- C9 amended: the progress command replies with the onboarding prompt and
skips the oracle exactly when the user RECORD is absent; whenever a record
exists — even with an empty habits list — the oracle is invoked. -/
theorem claim9_amended_record_absence (db : DB) (uid now : Nat)
    (report : List ProgressItem) :
    (findUser db uid = none →
       (check_progress db uid now report).2 = [CPEffect.reply onboardingReply]
       ∧ CPEffect.oracleCall ∉ (check_progress db uid now report).2)
    ∧ (∀ u, findUser db uid = some u →
       CPEffect.oracleCall ∈ (check_progress db uid now report).2) := by
  constructor
  · intro hnone
    constructor
    · simp [check_progress, hnone]
    · simp [check_progress, hnone]
  · intro u hsome
    by_cases hr : report.isEmpty
    · simp [check_progress, hsome, hr]
    · simp [check_progress, hsome, hr]

/-- C9 witness: with no record, the reply is the onboarding prompt and no
oracle call happens; with an existing empty-habits record, the oracle runs. -/
theorem claim9_witness :
    ((check_progress [] 1 5 []).2 = [CPEffect.reply onboardingReply]
      ∧ CPEffect.oracleCall ∉ (check_progress [] 1 5 []).2)
    ∧ CPEffect.oracleCall ∈ (check_progress c9db 1 5 []).2 :=
  ⟨(claim9_amended_record_absence [] 1 5 []).1 rfl,
   (claim9_amended_record_absence c9db 1 5 []).2 ⟨1, [], [], [], 0⟩ rfl⟩

/-- C10: when the verdict score fails the accept threshold, the only effect
is the single rejection reply — no webhook POST, no pinned-summary refresh,
and no store operation — whereas an accepted score produces exactly the
webhook, the acceptance reply, and the summary refresh. -/
theorem claim10_reject_frame (db : DB) (uid now : Nat) (v : Verdict) (p : Int)
    (hb m : String) (u : User)
    (hp : v.points = some p) (hhb : v.habit = some hb) (hm : v.message = some m)
    (hfind : findUser db uid = some u) :
    (p ≤ -10 →
       (photoPath db uid now v).effects = [Effect.reply (rejectReply m)]
       ∧ (photoPath db uid now v).ops = [])
    ∧ (-10 < p → ∃ wp,
       (photoPath db uid now v).effects =
         [Effect.webhook wp, Effect.reply (acceptReply p m), Effect.pinUpdate uid]) := by
  obtain ⟨vh, vp, vm⟩ := v
  obtain rfl : vp = some p := hp
  obtain rfl : vh = some hb := hhb
  obtain rfl : vm = some m := hm
  constructor
  · intro hle
    have hnot : ¬(-10 < p) := not_lt.mpr hle
    constructor
    · simp [photoPath, hnot]
    · simp [photoPath, hnot]
  · intro hacc
    cases hms : findSimilarHabit u.habits hb with
    | some ex =>
      simp only [photoPath, hfind, hms, extract_score_from_response, if_pos hacc]
      exact ⟨_, rfl⟩
    | none =>
      simp only [photoPath, hfind, hms, extract_score_from_response, if_pos hacc]
      exact ⟨_, rfl⟩

/-- C10 witness: a rejected verdict (-12) yields only the rejection reply;
an accepted one (3) yields webhook, reply, and pin refresh. -/
theorem claim10_witness :
    ((photoPath c10db 1 5 c10rej).effects = [Effect.reply (rejectReply "bad")]
      ∧ (photoPath c10db 1 5 c10rej).ops = [])
    ∧ ∃ wp, (photoPath c10db 1 5 c10acc).effects =
        [Effect.webhook wp, Effect.reply (acceptReply 3 "good"), Effect.pinUpdate 1] :=
  ⟨(claim10_reject_frame c10db 1 5 c10rej (-12) "run" "bad" ⟨1, [], [], [], 0⟩
      rfl rfl rfl rfl).1 (by norm_num),
   (claim10_reject_frame c10db 1 5 c10acc 3 "run" "good" ⟨1, [], [], [], 0⟩
      rfl rfl rfl rfl).2 (by norm_num)⟩

end HabitTracker
